import Mathlib

/-!
Shallow embedding of the gsignond SASL plugin core
(`src/src/gsignond-sasl-plugin.c`) and proofs about its session controller
and property resolver.

The external gsasl mechanism library is modelled as an oracle (`GsaslLib`)
supplying the result of `gsasl_client_start` and of `gsasl_step64`; the
step result depends on the challenge handed to it and on the parameter
bag the plugin callback resolves against, which is exactly the interface
the C code exposes to it.  Outward framework signals
(`gsignond_plugin_response`, `gsignond_plugin_response_final`,
`gsignond_plugin_error`) are modelled as an emitted signal list.
-/

namespace GSignondSasl

/-- gsasl result code `GSASL_OK`. -/
def GSASL_OK : Int := 0

/-- gsasl result code `GSASL_NEEDS_MORE`. -/
def GSASL_NEEDS_MORE : Int := 1

/-- A `GSignondDictionary` / `GSignondSessionData`: a string-keyed bag of
string values, plus the allowed-realms string sequence that gsignond
stores through its dedicated accessor. -/
structure GSignondSessionData where
  entries : List (String × String)
  allowed_realms : Option (List String)
deriving DecidableEq

/-- `gsignond_dictionary_get_string`: look a string value up by key. -/
def gsignond_dictionary_get_string (d : GSignondSessionData) (k : String) :
    Option String :=
  (d.entries.find? (fun p => p.1 == k)).map (fun p => p.2)

/-- `gsignond_dictionary_new`: a fresh empty bag. -/
def gsignond_dictionary_new : GSignondSessionData :=
  ⟨[], none⟩

/-- `gsignond_dictionary_set_string`: store a string value under a key. -/
def gsignond_dictionary_set_string (d : GSignondSessionData) (k v : String) :
    GSignondSessionData :=
  { d with entries := (k, v) :: d.entries.filter (fun p => !(p.1 == k)) }

/-- External gsignond accessor `gsignond_session_data_get_username`
(reads the username key of the bag). -/
def gsignond_session_data_get_username (d : GSignondSessionData) :
    Option String :=
  gsignond_dictionary_get_string d "UserName"

/-- External gsignond accessor `gsignond_session_data_get_secret`. -/
def gsignond_session_data_get_secret (d : GSignondSessionData) :
    Option String :=
  gsignond_dictionary_get_string d "Secret"

/-- External gsignond accessor `gsignond_session_data_get_realm`. -/
def gsignond_session_data_get_realm (d : GSignondSessionData) :
    Option String :=
  gsignond_dictionary_get_string d "Realm"

/-- External gsignond accessor `gsignond_session_data_get_allowed_realms`. -/
def gsignond_session_data_get_allowed_realms (d : GSignondSessionData) :
    Option (List String) :=
  d.allowed_realms

/-- Modelled from the spec: `gsignond_is_host_in_domain` lives in the
external gsignond utility library, not in this repository.  Per the spec,
a hostname lies in a domain iff it equals the domain or is a dot-suffixed
subdomain of it. -/
def gsignond_is_host_in_domain (host domain : String) : Bool :=
  host == domain || host.endsWith ("." ++ domain)

/-- The gsasl property enumeration, with the named members the plugin
callback dispatches on; `GSASL_OTHER` stands for every member outside
that fixed table. -/
inductive GsaslProperty where
  | GSASL_AUTHID
  | GSASL_AUTHZID
  | GSASL_PASSWORD
  | GSASL_ANONYMOUS_TOKEN
  | GSASL_SERVICE
  | GSASL_HOSTNAME
  | GSASL_GSSAPI_DISPLAY_NAME
  | GSASL_PASSCODE
  | GSASL_SUGGESTED_PIN
  | GSASL_PIN
  | GSASL_REALM
  | GSASL_DIGEST_MD5_HASHED_PASSWORD
  | GSASL_QOPS
  | GSASL_QOP
  | GSASL_SCRAM_ITER
  | GSASL_SCRAM_SALT
  | GSASL_SCRAM_SALTED_PASSWORD
  | GSASL_CB_TLS_UNIQUE
  | GSASL_OTHER (code : Nat)
deriving DecidableEq

/-- `_set_gsasl_property`: with an absent value it answers
`GSASL_NO_CALLBACK` (modelled `none`); with a present value it hands the
value to `gsasl_property_set` and answers `GSASL_OK` (modelled `some`). -/
def set_gsasl_property (value : Option String) : Option String :=
  match value with
  | none => none
  | some v => some v

/-- `_gsasl_callback`: the property resolver.  Reads the retained session
data bag (absent bag resolves to `GSASL_NO_CALLBACK`), then dispatches the
requested property to one fixed key of the bag; properties outside the
switch resolve to `GSASL_NO_CALLBACK`. -/
def gsasl_callback (session_data : Option GSignondSessionData)
    (p : GsaslProperty) : Option String :=
  match session_data with
  | none => none
  | some sd =>
    match p with
    | .GSASL_AUTHID =>
        set_gsasl_property (gsignond_session_data_get_username sd)
    | .GSASL_AUTHZID =>
        set_gsasl_property (gsignond_dictionary_get_string sd "Authzid")
    | .GSASL_PASSWORD =>
        set_gsasl_property (gsignond_session_data_get_secret sd)
    | .GSASL_ANONYMOUS_TOKEN =>
        set_gsasl_property (gsignond_dictionary_get_string sd "AnonymousToken")
    | .GSASL_SERVICE =>
        set_gsasl_property (gsignond_dictionary_get_string sd "Service")
    | .GSASL_HOSTNAME =>
        set_gsasl_property (gsignond_dictionary_get_string sd "Hostname")
    | .GSASL_GSSAPI_DISPLAY_NAME =>
        set_gsasl_property (gsignond_dictionary_get_string sd "GssapiDisplayName")
    | .GSASL_PASSCODE =>
        set_gsasl_property (gsignond_dictionary_get_string sd "Passcode")
    | .GSASL_SUGGESTED_PIN =>
        set_gsasl_property (gsignond_dictionary_get_string sd "SuggestedPin")
    | .GSASL_PIN =>
        set_gsasl_property (gsignond_dictionary_get_string sd "Pin")
    | .GSASL_REALM =>
        set_gsasl_property (gsignond_dictionary_get_string sd "Realm")
    | .GSASL_DIGEST_MD5_HASHED_PASSWORD =>
        set_gsasl_property (gsignond_dictionary_get_string sd "DigestMd5HashedPassword")
    | .GSASL_QOPS =>
        set_gsasl_property (gsignond_dictionary_get_string sd "Qops")
    | .GSASL_QOP =>
        set_gsasl_property (gsignond_dictionary_get_string sd "Qop")
    | .GSASL_SCRAM_ITER =>
        set_gsasl_property (gsignond_dictionary_get_string sd "ScramIter")
    | .GSASL_SCRAM_SALT =>
        set_gsasl_property (gsignond_dictionary_get_string sd "ScramSalt")
    | .GSASL_SCRAM_SALTED_PASSWORD =>
        set_gsasl_property (gsignond_dictionary_get_string sd "ScramSaltedPassword")
    | .GSASL_CB_TLS_UNIQUE =>
        set_gsasl_property (gsignond_dictionary_get_string sd "CbTlsUnique")
    | .GSASL_OTHER _ => none

/-- The spec's property table (section 4.2): the fixed key each of the
eighteen listed property kinds maps to; kinds outside the table map to
nothing. -/
def propertyKey : GsaslProperty → Option String
  | .GSASL_AUTHID => some "UserName"
  | .GSASL_AUTHZID => some "Authzid"
  | .GSASL_PASSWORD => some "Secret"
  | .GSASL_ANONYMOUS_TOKEN => some "AnonymousToken"
  | .GSASL_SERVICE => some "Service"
  | .GSASL_HOSTNAME => some "Hostname"
  | .GSASL_GSSAPI_DISPLAY_NAME => some "GssapiDisplayName"
  | .GSASL_PASSCODE => some "Passcode"
  | .GSASL_SUGGESTED_PIN => some "SuggestedPin"
  | .GSASL_PIN => some "Pin"
  | .GSASL_REALM => some "Realm"
  | .GSASL_DIGEST_MD5_HASHED_PASSWORD => some "DigestMd5HashedPassword"
  | .GSASL_QOPS => some "Qops"
  | .GSASL_QOP => some "Qop"
  | .GSASL_SCRAM_ITER => some "ScramIter"
  | .GSASL_SCRAM_SALT => some "ScramSalt"
  | .GSASL_SCRAM_SALTED_PASSWORD => some "ScramSaltedPassword"
  | .GSASL_CB_TLS_UNIQUE => some "CbTlsUnique"
  | .GSASL_OTHER _ => none

/-- The gsignond error codes the plugin emits. -/
inductive GSignondErrorCode where
  | NOT_AUTHORIZED
  | OPERATION_NOT_SUPPORTED
  | WRONG_STATE
  | SESSION_CANCELED
deriving DecidableEq

/-- An outward framework signal. -/
inductive Signal where
  | response (data : GSignondSessionData)
  | response_final (data : GSignondSessionData)
  | error (code : GSignondErrorCode) (message : String)
deriving DecidableEq

/-- Model of the external gsasl library: the result code of
`gsasl_client_start` for a mechanism name, and the result of
`gsasl_step64`, which sees the incoming challenge and (through the
plugin callback) the retained session data bag, and yields a result
code together with the produced output string. -/
structure GsaslLib where
  clientStart : String → Int
  step64 : Option String → Option GSignondSessionData → Int × String

/-- The plugin instance state: whether `gsasl_init` produced a library
context, whether a gsasl mechanism session is active, and the retained
session data reference. -/
structure GSignondSaslPlugin where
  gsasl_context : Bool
  gsasl_session : Bool
  session_data : Option GSignondSessionData
deriving DecidableEq

/-- `gsignond_sasl_plugin_init`: the context is set iff `gsasl_init`
succeeded; no mechanism session and no retained bag exist yet. -/
def gsignond_sasl_plugin_init (gsasl_init_ok : Bool) : GSignondSaslPlugin :=
  ⟨gsasl_init_ok, false, none⟩

/-- `_reset_session`: drop the retained session data and finish the gsasl
session (both become absent). -/
def reset_session (self : GSignondSaslPlugin) : GSignondSaslPlugin :=
  { self with session_data := none, gsasl_session := false }

/-- `gsignond_sasl_plugin_cancel`: unconditionally emit a
`SESSION_CANCELED` error; the state is untouched. -/
def gsignond_sasl_plugin_cancel (self : GSignondSaslPlugin) :
    GSignondSaslPlugin × List Signal :=
  (self, [Signal.error .SESSION_CANCELED "Session canceled"])

/-- The response bag `_do_gsasl_iteration` builds: a fresh dictionary
holding the step output under key ResponseBase64. -/
def response_bag (output : String) : GSignondSessionData :=
  gsignond_dictionary_set_string gsignond_dictionary_new "ResponseBase64" output

/-- `_do_gsasl_iteration`: run one `gsasl_step64`.  A result other than
`GSASL_OK`/`GSASL_NEEDS_MORE` emits a `NOT_AUTHORIZED` error carrying the
numeric result code and leaves the state as-is; `GSASL_OK` resets the
session and emits response-final with the output; `GSASL_NEEDS_MORE`
emits response with the output and keeps the session. -/
def do_gsasl_iteration (lib : GsaslLib) (self : GSignondSaslPlugin)
    (challenge : Option String) : GSignondSaslPlugin × List Signal :=
  let step := lib.step64 challenge self.session_data
  if step.1 != GSASL_OK && step.1 != GSASL_NEEDS_MORE then
    (self, [Signal.error .NOT_AUTHORIZED
      ("Authorization error " ++ toString step.1)])
  else
    if step.1 == GSASL_OK then
      (reset_session self, [Signal.response_final (response_bag step.2)])
    else
      (self, [Signal.response (response_bag step.2)])

/-- `gsignond_sasl_plugin_request`: without an active gsasl session emit a
`WRONG_STATE` error; otherwise run one iteration seeded with the
ChallengeBase64 value of the supplied bag (property lookups keep using
the retained bag inside the state). -/
def gsignond_sasl_plugin_request (lib : GsaslLib) (self : GSignondSaslPlugin)
    (session_data : GSignondSessionData) : GSignondSaslPlugin × List Signal :=
  if self.gsasl_session then
    do_gsasl_iteration lib self
      (gsignond_dictionary_get_string session_data "ChallengeBase64")
  else
    (self, [Signal.error .WRONG_STATE "request_initial needs to be issued first"])

/-- The realm of the supplied bag, as `gsignond_sasl_plugin_request_initial`
reads it. -/
def session_realm (d : GSignondSessionData) : Option String :=
  gsignond_session_data_get_realm d

/-- The hostname of the supplied bag, as
`gsignond_sasl_plugin_request_initial` reads it. -/
def session_host (d : GSignondSessionData) : Option String :=
  gsignond_dictionary_get_string d "Hostname"

/-- One turn of the allowed-realms loop: record whether the item equals
the supplied realm and whether the supplied hostname lies in the item
domain. -/
def scan_step (realm host : Option String) (acc : Bool × Bool)
    (item : String) : Bool × Bool :=
  ((match realm with
    | some r => acc.1 || (r == item)
    | none => acc.1),
   (match host with
    | some h => acc.2 || gsignond_is_host_in_domain h item
    | none => acc.2))

/-- The allowed-realms loop of `gsignond_sasl_plugin_request_initial`:
fold over the sequence with both flags starting FALSE. -/
def realm_host_scan (realm host : Option String) (items : List String) :
    Bool × Bool :=
  items.foldl (scan_step realm host) (false, false)

/-- The (realm_ok, host_ok) pair after the loop; with no allowed-realms
sequence the loop never runs and both flags stay FALSE. -/
def session_scan (d : GSignondSessionData) : Bool × Bool :=
  match gsignond_session_data_get_allowed_realms d with
  | some items => realm_host_scan (session_realm d) (session_host d) items
  | none => (false, false)

/-- The guard of the first early return: a realm was supplied and realm_ok
stayed FALSE. -/
def realm_rejected (d : GSignondSessionData) : Bool :=
  (session_realm d).isSome && !(session_scan d).1

/-- The guard of the second early return: a hostname was supplied and
host_ok stayed FALSE. -/
def host_rejected (d : GSignondSessionData) : Bool :=
  (session_host d).isSome && !(session_scan d).2

/-- The tail of `gsignond_sasl_plugin_request_initial` after the
authorization check passed: reset the prior session, start a gsasl client
session for the mechanism (failure emits `OPERATION_NOT_SUPPORTED`
carrying the numeric code), retain the supplied bag and run the first
iteration with its ChallengeBase64 value. -/
def request_initial_after_auth (lib : GsaslLib) (self : GSignondSaslPlugin)
    (session_data : GSignondSessionData) (mechanism : String) :
    GSignondSaslPlugin × List Signal :=
  let self1 := reset_session self
  let res := lib.clientStart mechanism
  if res != GSASL_OK then
    (self1, [Signal.error .OPERATION_NOT_SUPPORTED
      ("Couldn\'t initialize gsasl session, error " ++ toString res)])
  else
    let self2 := { self1 with gsasl_session := true,
                              session_data := some session_data }
    do_gsasl_iteration lib self2
      (gsignond_dictionary_get_string session_data "ChallengeBase64")

/-- `gsignond_sasl_plugin_request_initial`: with no library context emit
`OPERATION_NOT_SUPPORTED`; then run the realm/hostname authorization
check with its two early `NOT_AUTHORIZED` returns; then start the session
and iterate. -/
def gsignond_sasl_plugin_request_initial (lib : GsaslLib)
    (self : GSignondSaslPlugin) (session_data : GSignondSessionData)
    (mechanism : String) : GSignondSaslPlugin × List Signal :=
  if !self.gsasl_context then
    (self, [Signal.error .OPERATION_NOT_SUPPORTED
      "Couldn\'t initialize gsasl library"])
  else if realm_rejected session_data then
    (self, [Signal.error .NOT_AUTHORIZED "Unauthorized realm"])
  else if host_rejected session_data then
    (self, [Signal.error .NOT_AUTHORIZED "Unauthorized hostname"])
  else
    request_initial_after_auth lib self session_data mechanism

/-- `gsignond_sasl_plugin_user_action_finished`: always a `WRONG_STATE`
error, no other effect. -/
def gsignond_sasl_plugin_user_action_finished (self : GSignondSaslPlugin)
    (session_data : GSignondSessionData) : GSignondSaslPlugin × List Signal :=
  (self, [Signal.error .WRONG_STATE "SASL plugin doesn\'t support user actions"])

/-- `gsignond_sasl_plugin_refresh`: always a `WRONG_STATE` error, no other
effect. -/
def gsignond_sasl_plugin_refresh (self : GSignondSaslPlugin)
    (session_data : GSignondSessionData) : GSignondSaslPlugin × List Signal :=
  (self, [Signal.error .WRONG_STATE "SASL plugin doesn\'t support refresh"])

/-- The `type` property branch of `gsignond_sasl_plugin_get_property`:
the string sasl when the library context exists, the empty string
otherwise. -/
def gsignond_sasl_plugin_get_property_type (self : GSignondSaslPlugin) :
    String :=
  if self.gsasl_context then "sasl" else ""

/-! Concrete fixtures used by witnesses and counterexamples. -/

/-- A library whose step always finishes successfully. -/
def libOk : GsaslLib :=
  { clientStart := fun _ => GSASL_OK
    step64 := fun _ _ => (GSASL_OK, "b2s=") }

/-- A library whose step always asks for another round. -/
def libNeedsMore : GsaslLib :=
  { clientStart := fun _ => GSASL_OK
    step64 := fun _ _ => (GSASL_NEEDS_MORE, "c3RlcA==") }

/-- A library whose step always fails with code 2. -/
def libFailStep : GsaslLib :=
  { clientStart := fun _ => GSASL_OK
    step64 := fun _ _ => (2, "") }

/-- A library that cannot start a client session (code 2,
`GSASL_UNKNOWN_MECHANISM`). -/
def libFailStart : GsaslLib :=
  { clientStart := fun _ => 2
    step64 := fun _ _ => (GSASL_OK, "b2s=") }

/-- A freshly initialized plugin whose `gsasl_init` succeeded. -/
def plugin_ready : GSignondSaslPlugin :=
  gsignond_sasl_plugin_init true

/-- Session parameters retained by a start call. -/
def start_params : GSignondSessionData :=
  ⟨[("UserName", "megauser"), ("Secret", "megapassword")], none⟩

/-- A plugin with an active mechanism session retaining `start_params`. -/
def plugin_active : GSignondSaslPlugin :=
  ⟨true, true, some start_params⟩

/-- Parameters handed to a continue call: a challenge plus credential
values that differ from the retained ones. -/
def cont_params : GSignondSessionData :=
  ⟨[("ChallengeBase64", "Y2hhbGxlbmdl"), ("UserName", "otheruser")], none⟩

/-- Continue parameters with the same challenge but different credential
values. -/
def cont_params_other : GSignondSessionData :=
  ⟨[("ChallengeBase64", "Y2hhbGxlbmdl"), ("Secret", "otherpassword")], none⟩

/-- Start parameters supplying a realm but no allowed-realms sequence. -/
def realm_only_params : GSignondSessionData :=
  ⟨[("Realm", "megarealm")], none⟩

/-- Start parameters supplying a realm and a non-empty allowed-realms
sequence that does not contain it. -/
def wrong_realm_params : GSignondSessionData :=
  ⟨[("Realm", "megarealm")], some ["otherrealm"]⟩

/-- Whether one loop item matches the supplied realm. -/
def realm_matches (realm : Option String) (item : String) : Bool :=
  match realm with
  | some r => r == item
  | none => false

/-- Whether the supplied hostname lies in one loop item's domain. -/
def host_matches (host : Option String) (item : String) : Bool :=
  match host with
  | some h => gsignond_is_host_in_domain h item
  | none => false

/-- The allowed-realms entries the loop visits (none visited when the
sequence is absent). -/
def allowed_list (d : GSignondSessionData) : List String :=
  (gsignond_session_data_get_allowed_realms d).getD []

/-- After an operation on a supplied bag `d`, the retained bag is either
the prior one, dropped, or exactly the supplied value — never an altered
copy of the caller's bag. -/
def retained_from (pre : GSignondSaslPlugin) (d : GSignondSessionData)
    (post : GSignondSaslPlugin) : Prop :=
  post.session_data = pre.session_data ∨ post.session_data = none ∨
    post.session_data = some d

/-- The state invariant: a mechanism session is active exactly when a
session parameters bag is retained. -/
def session_invariant (self : GSignondSaslPlugin) : Prop :=
  self.gsasl_session = self.session_data.isSome

/-! Helper lemmas. -/

/-- `_set_gsasl_property` forwards exactly the value it is given. -/
lemma set_gsasl_property_eq (value : Option String) :
    set_gsasl_property value = value := by
  cases value <;> rfl

lemma scan_step_eq (realm host : Option String) (acc : Bool × Bool)
    (item : String) :
    scan_step realm host acc item =
      (acc.1 || realm_matches realm item, acc.2 || host_matches host item) := by
  cases realm <;> cases host <;> simp [scan_step, realm_matches, host_matches]

lemma scan_foldl (realm host : Option String) (items : List String)
    (acc : Bool × Bool) :
    items.foldl (scan_step realm host) acc =
      (acc.1 || items.any (realm_matches realm),
       acc.2 || items.any (host_matches host)) := by
  induction items generalizing acc with
  | nil => simp
  | cons x xs ih =>
      simp [List.foldl_cons, scan_step_eq, ih, List.any_cons, Bool.or_assoc]

lemma realm_host_scan_eq (realm host : Option String) (items : List String) :
    realm_host_scan realm host items =
      (items.any (realm_matches realm), items.any (host_matches host)) := by
  simp [realm_host_scan, scan_foldl]

lemma session_scan_eq (d : GSignondSessionData) :
    session_scan d =
      ((allowed_list d).any (realm_matches (session_realm d)),
       (allowed_list d).any (host_matches (session_host d))) := by
  unfold session_scan allowed_list
  cases gsignond_session_data_get_allowed_realms d with
  | none => simp
  | some items => simp [realm_host_scan_eq]

lemma realm_rejected_iff (d : GSignondSessionData) :
    realm_rejected d = true ↔
      ∃ r, session_realm d = some r ∧ ∀ item ∈ allowed_list d, r ≠ item := by
  unfold realm_rejected
  rw [session_scan_eq]
  cases hr : session_realm d with
  | none => simp [realm_matches]
  | some r =>
      simp only [Option.isSome_some, Bool.true_and, Bool.not_eq_true',
        List.any_eq_false, realm_matches]
      constructor
      · intro h
        exact ⟨r, rfl, fun item hitem => by simpa using h item hitem⟩
      · rintro ⟨r', hr', h⟩
        obtain rfl : r' = r := by simpa using hr'.symm
        intro item hitem
        simpa using h item hitem

lemma host_rejected_iff (d : GSignondSessionData) :
    host_rejected d = true ↔
      ∃ h, session_host d = some h ∧
        ∀ item ∈ allowed_list d, gsignond_is_host_in_domain h item = false := by
  unfold host_rejected
  rw [session_scan_eq]
  cases hh : session_host d with
  | none => simp [host_matches]
  | some h =>
      simp only [Option.isSome_some, Bool.true_and, Bool.not_eq_true',
        List.any_eq_false, host_matches]
      constructor
      · intro hall
        exact ⟨h, rfl, fun item hitem => by simpa using hall item hitem⟩
      · rintro ⟨h', hh', hall⟩
        obtain rfl : h' = h := by simpa using hh'.symm
        intro item hitem
        simpa using hall item hitem

/-- A string starting with the head character of `a` differs from any
string whose head character is different. -/
lemma string_append_ne_of_head (a s t : String) (c : Char)
    (ha : a.data.head? = some c) (ht : t.data.head? ≠ some c) :
    a ++ s ≠ t := by
  intro h
  apply ht
  rw [← h]
  cases a with
  | mk l =>
      cases l with
      | nil => simp at ha
      | cons x xs =>
          have hx : x = c := by simpa using ha
          subst hx
          show ((⟨x :: xs⟩ : String) ++ s).data.head? = some x
          simp [String.data_append]

lemma step_error_msg_ne_realm (s : String) :
    ("Authorization error " ++ s) ≠ "Unauthorized realm" :=
  string_append_ne_of_head "Authorization error " s "Unauthorized realm" 'A'
    (by decide) (by decide)

lemma step_error_msg_ne_hostname (s : String) :
    ("Authorization error " ++ s) ≠ "Unauthorized hostname" :=
  string_append_ne_of_head "Authorization error " s "Unauthorized hostname" 'A'
    (by decide) (by decide)

/-- The signals produced past the authorization check are never one of its
two policy errors. -/
lemma after_auth_snd_ne_policy (lib : GsaslLib) (self : GSignondSaslPlugin)
    (d : GSignondSessionData) (m : String) (msg : String)
    (hmsg : ∀ s, ("Authorization error " ++ s) ≠ msg) :
    (request_initial_after_auth lib self d m).2 ≠
      [Signal.error .NOT_AUTHORIZED msg] := by
  intro h
  simp only [request_initial_after_auth, do_gsasl_iteration] at h
  split at h
  · simp at h
  · split at h
    · exact hmsg _ (by simpa using h)
    · split at h
      · simp at h
      · simp at h

/-- The resolver dispatch, written as one lookup through the property
table. -/
lemma gsasl_callback_eq_table (session_data : Option GSignondSessionData)
    (p : GsaslProperty) :
    gsasl_callback session_data p =
      session_data.bind
        (fun d => (propertyKey p).bind (gsignond_dictionary_get_string d)) := by
  cases session_data with
  | none => rfl
  | some d =>
      cases p <;>
        simp [gsasl_callback, propertyKey, set_gsasl_property_eq,
          gsignond_session_data_get_username, gsignond_session_data_get_secret]

/-! Claim theorems. -/

/-- C1: every step iteration has exactly three outcomes fixed by the
library step result: `GSASL_OK` destroys the mechanism session and emits
one response-final signal carrying the output under ResponseBase64;
`GSASL_NEEDS_MORE` emits one response signal with the output under the
same key and keeps the session; any other result emits one
`NOT_AUTHORIZED` error whose message carries the numeric result code and
leaves the state unchanged.  Exactly one signal is emitted per
iteration. -/
theorem do_gsasl_iteration_three_outcomes (lib : GsaslLib)
    (self : GSignondSaslPlugin) (challenge : Option String) :
    ((lib.step64 challenge self.session_data).1 = GSASL_OK →
      do_gsasl_iteration lib self challenge =
        (reset_session self,
         [Signal.response_final
            (response_bag (lib.step64 challenge self.session_data).2)])) ∧
    ((lib.step64 challenge self.session_data).1 = GSASL_NEEDS_MORE →
      do_gsasl_iteration lib self challenge =
        (self,
         [Signal.response
            (response_bag (lib.step64 challenge self.session_data).2)])) ∧
    ((lib.step64 challenge self.session_data).1 ≠ GSASL_OK →
      (lib.step64 challenge self.session_data).1 ≠ GSASL_NEEDS_MORE →
      do_gsasl_iteration lib self challenge =
        (self,
         [Signal.error .NOT_AUTHORIZED
            ("Authorization error " ++
              toString (lib.step64 challenge self.session_data).1)])) ∧
    (do_gsasl_iteration lib self challenge).2.length = 1 := by
  refine ⟨?_, ?_, ?_, ?_⟩
  · intro h
    simp [do_gsasl_iteration, h, GSASL_OK, GSASL_NEEDS_MORE]
  · intro h
    simp [do_gsasl_iteration, h, GSASL_OK, GSASL_NEEDS_MORE]
  · intro h1 h2
    simp [do_gsasl_iteration, h1, h2]
  · simp only [do_gsasl_iteration]
    split
    · rfl
    · split
      · rfl
      · rfl

/-- C1 witness: the three outcomes at concrete libraries and a concrete
active plugin state. -/
theorem do_gsasl_iteration_three_outcomes_witness :
    do_gsasl_iteration libOk plugin_active none =
      (reset_session plugin_active,
       [Signal.response_final (response_bag "b2s=")]) ∧
    do_gsasl_iteration libNeedsMore plugin_active none =
      (plugin_active, [Signal.response (response_bag "c3RlcA==")]) ∧
    do_gsasl_iteration libFailStep plugin_active none =
      (plugin_active,
       [Signal.error .NOT_AUTHORIZED "Authorization error 2"]) :=
  ⟨(do_gsasl_iteration_three_outcomes libOk plugin_active none).1 rfl,
   (do_gsasl_iteration_three_outcomes libNeedsMore plugin_active none).2.1 rfl,
   (do_gsasl_iteration_three_outcomes libFailStep plugin_active none).2.2.1
     (by decide) (by decide)⟩

/-- C3: a continue request without an active mechanism session — also on
a fresh plugin before any start — emits exactly one `WRONG_STATE` error
with the fixed message, emits no response signal, performs no step and
leaves the whole state unchanged. -/
theorem request_without_session_wrong_state (lib : GsaslLib)
    (self : GSignondSaslPlugin) (session_data : GSignondSessionData)
    (h : self.gsasl_session = false) :
    gsignond_sasl_plugin_request lib self session_data =
      (self,
       [Signal.error .WRONG_STATE "request_initial needs to be issued first"]) := by
  simp [gsignond_sasl_plugin_request, h]

/-- C3 witness: continue on a freshly initialized plugin. -/
theorem request_without_session_wrong_state_witness :
    gsignond_sasl_plugin_request libOk (gsignond_sasl_plugin_init true)
        cont_params =
      (gsignond_sasl_plugin_init true,
       [Signal.error .WRONG_STATE "request_initial needs to be issued first"]) :=
  request_without_session_wrong_state libOk (gsignond_sasl_plugin_init true)
    cont_params rfl

/-- C5: cancel, in every plugin state, emits exactly one
`SESSION_CANCELED` error and nothing else, and leaves the mechanism
session and the retained session parameters exactly as they were. -/
theorem cancel_emits_session_canceled (self : GSignondSaslPlugin) :
    gsignond_sasl_plugin_cancel self =
      (self, [Signal.error .SESSION_CANCELED "Session canceled"]) :=
  rfl

/-- C6: the property resolver is a pure lookup: each of the eighteen
listed property kinds resolves through exactly one fixed key of the
active session parameters, yielding the present value when the key is
present; it yields absent when no session parameters are retained, when
the mapped key is missing, and unconditionally for every property kind
outside the fixed table. -/
theorem gsasl_callback_is_table_lookup (session_data : Option GSignondSessionData)
    (p : GsaslProperty) :
    gsasl_callback session_data p =
      session_data.bind
        (fun d => (propertyKey p).bind (gsignond_dictionary_get_string d)) :=
  gsasl_callback_eq_table session_data p

/-- C8 counterexample: on a plugin whose gsasl library failed to
initialize, the type property is the empty string, not "sasl" — the
claim's "in every state" fails. -/
theorem type_property_counterexample :
    gsignond_sasl_plugin_get_property_type (gsignond_sasl_plugin_init false) ≠
      "sasl" := by
  decide

/-- C8 amended: the type property is "sasl" whenever the gsasl library
context initialized, the empty string when it failed, and its value never
depends on the mechanism session or the retained parameters. -/
theorem type_property_by_context (self : GSignondSaslPlugin) :
    (self.gsasl_context = true →
      gsignond_sasl_plugin_get_property_type self = "sasl") ∧
    (self.gsasl_context = false →
      gsignond_sasl_plugin_get_property_type self = "") ∧
    (∀ session sd,
      gsignond_sasl_plugin_get_property_type
          ⟨self.gsasl_context, session, sd⟩ =
        gsignond_sasl_plugin_get_property_type self) := by
  refine ⟨fun h => ?_, fun h => ?_, fun session sd => ?_⟩
  · simp [gsignond_sasl_plugin_get_property_type, h]
  · simp [gsignond_sasl_plugin_get_property_type, h]
  · rfl

/-- C8 witness: the two context cases evaluated on fresh plugins. -/
theorem type_property_by_context_witness :
    gsignond_sasl_plugin_get_property_type (gsignond_sasl_plugin_init true) =
      "sasl" ∧
    gsignond_sasl_plugin_get_property_type (gsignond_sasl_plugin_init false) =
      "" :=
  ⟨(type_property_by_context (gsignond_sasl_plugin_init true)).1 rfl,
   (type_property_by_context (gsignond_sasl_plugin_init false)).2.1 rfl⟩

/-- C2 counterexample: the claim makes the Unauthorized-realm error
conditional on the allowed-realms set being present and non-empty; here
the set is absent, yet a start supplying a realm is rejected with exactly
that error. -/
theorem unauthorized_realm_with_absent_allowed_realms :
    gsignond_session_data_get_allowed_realms realm_only_params = none ∧
    gsignond_sasl_plugin_request_initial libOk plugin_ready realm_only_params
        "DIGEST-MD5" =
      (plugin_ready, [Signal.error .NOT_AUTHORIZED "Unauthorized realm"]) :=
  ⟨rfl, by decide⟩

/-- C2 amended: with an initialized library context, the
Unauthorized-realm error is emitted exactly when a realm is supplied and
no entry of the allowed-realms set equals it case-sensitively, where an
absent set has no entries (so a supplied realm is then always rejected);
the Unauthorized-hostname error is emitted exactly when the realm check
passed, a hostname is supplied and no entry's domain contains it.  On
either failure the single error is the whole outcome and the state is
unchanged. -/
theorem request_initial_authorization_check (lib : GsaslLib)
    (self : GSignondSaslPlugin) (d : GSignondSessionData) (m : String)
    (hctx : self.gsasl_context = true) :
    (gsignond_sasl_plugin_request_initial lib self d m =
        (self, [Signal.error .NOT_AUTHORIZED "Unauthorized realm"]) ↔
      ∃ r, session_realm d = some r ∧ ∀ item ∈ allowed_list d, r ≠ item) ∧
    (gsignond_sasl_plugin_request_initial lib self d m =
        (self, [Signal.error .NOT_AUTHORIZED "Unauthorized hostname"]) ↔
      ((∀ r, session_realm d = some r → ∃ item ∈ allowed_list d, r = item) ∧
        ∃ h, session_host d = some h ∧
          ∀ item ∈ allowed_list d,
            gsignond_is_host_in_domain h item = false)) := by
  by_cases hR : realm_rejected d = true
  · have hP := (realm_rejected_iff d).mp hR
    constructor
    · apply iff_of_true
      · simp [gsignond_sasl_plugin_request_initial, hctx, hR]
      · exact hP
    · apply iff_of_false
      · intro h
        have h2 := congrArg Prod.snd h
        simp [gsignond_sasl_plugin_request_initial, hctx, hR] at h2
      · rintro ⟨hpass, _⟩
        obtain ⟨r, hr, hnone⟩ := hP
        obtain ⟨item, hitem, rfl⟩ := hpass r hr
        exact hnone r hitem rfl
  · have hnP : ¬ ∃ r, session_realm d = some r ∧
        ∀ item ∈ allowed_list d, r ≠ item :=
      fun hp => hR ((realm_rejected_iff d).mpr hp)
    have hpass : ∀ r, session_realm d = some r →
        ∃ item ∈ allowed_list d, r = item := by
      intro r hr
      by_contra hno
      push_neg at hno
      exact hnP ⟨r, hr, fun item hitem => hno item hitem⟩
    by_cases hH : host_rejected d = true
    · have hQ := (host_rejected_iff d).mp hH
      constructor
      · apply iff_of_false
        · intro h
          have h2 := congrArg Prod.snd h
          simp [gsignond_sasl_plugin_request_initial, hctx, hR, hH] at h2
        · exact hnP
      · apply iff_of_true
        · simp [gsignond_sasl_plugin_request_initial, hctx, hR, hH]
        · exact ⟨hpass, hQ⟩
    · have hnQ : ¬ ∃ h, session_host d = some h ∧
          ∀ item ∈ allowed_list d,
            gsignond_is_host_in_domain h item = false :=
        fun hq => hH ((host_rejected_iff d).mpr hq)
      have hres : gsignond_sasl_plugin_request_initial lib self d m =
          request_initial_after_auth lib self d m := by
        simp [gsignond_sasl_plugin_request_initial, hctx, hR, hH]
      constructor
      · apply iff_of_false
        · rw [hres]
          intro h
          exact after_auth_snd_ne_policy lib self d m _ step_error_msg_ne_realm
            (congrArg Prod.snd h)
        · exact hnP
      · apply iff_of_false
        · rw [hres]
          intro h
          exact after_auth_snd_ne_policy lib self d m _
            step_error_msg_ne_hostname (congrArg Prod.snd h)
        · rintro ⟨_, hq⟩
          exact hnQ hq

/-- C2 witness: a start supplying a realm absent from a present,
non-empty allowed-realms set is rejected with the Unauthorized-realm
error and an unchanged state. -/
theorem request_initial_authorization_check_witness :
    gsignond_sasl_plugin_request_initial libOk plugin_ready
        wrong_realm_params "DIGEST-MD5" =
      (plugin_ready, [Signal.error .NOT_AUTHORIZED "Unauthorized realm"]) :=
  (request_initial_authorization_check libOk plugin_ready wrong_realm_params
      "DIGEST-MD5" rfl).1.mpr
    ⟨"megarealm", rfl, by decide⟩

/-- C4 counterexample: when the gsasl library context failed to
initialize, start emits one `OPERATION_NOT_SUPPORTED` error whose message
is a fixed string containing no digit at all — it does not include an
underlying numeric error code as the claim states. -/
theorem start_failure_message_without_code :
    gsignond_sasl_plugin_request_initial libOk
        (gsignond_sasl_plugin_init false) start_params "PLAIN" =
      (gsignond_sasl_plugin_init false,
       [Signal.error .OPERATION_NOT_SUPPORTED
          "Couldn\'t initialize gsasl library"]) ∧
    "Couldn\'t initialize gsasl library".data.any Char.isDigit = false :=
  ⟨rfl, by decide⟩

/-- C4 amended: when the mechanism library cannot begin a client session,
exactly one `OPERATION_NOT_SUPPORTED` error is emitted, no step is
performed and no response signal is emitted; when the failure is the
per-mechanism session start the message includes the underlying numeric
code, while a library context that failed to initialize yields the fixed
message without a code. -/
theorem request_initial_cannot_start_session (lib : GsaslLib)
    (self : GSignondSaslPlugin) (d : GSignondSessionData) (m : String) :
    (self.gsasl_context = false →
      gsignond_sasl_plugin_request_initial lib self d m =
        (self,
         [Signal.error .OPERATION_NOT_SUPPORTED
            "Couldn\'t initialize gsasl library"])) ∧
    (self.gsasl_context = true → realm_rejected d = false →
      host_rejected d = false → lib.clientStart m ≠ GSASL_OK →
      gsignond_sasl_plugin_request_initial lib self d m =
        (reset_session self,
         [Signal.error .OPERATION_NOT_SUPPORTED
            ("Couldn\'t initialize gsasl session, error " ++
              toString (lib.clientStart m))])) := by
  constructor
  · intro h
    simp [gsignond_sasl_plugin_request_initial, h]
  · intro hctx hR hH hcs
    simp [gsignond_sasl_plugin_request_initial, hctx, hR, hH,
      request_initial_after_auth, hcs]

/-- C4 witness: the two failure shapes at concrete inputs — a dead
library context, and a client-start failure with code 2 whose message
carries the code. -/
theorem request_initial_cannot_start_session_witness :
    gsignond_sasl_plugin_request_initial libOk
        (gsignond_sasl_plugin_init false) cont_params_other "PLAIN" =
      (gsignond_sasl_plugin_init false,
       [Signal.error .OPERATION_NOT_SUPPORTED
          "Couldn\'t initialize gsasl library"]) ∧
    gsignond_sasl_plugin_request_initial libFailStart plugin_ready
        start_params "SCRAM-SHA-1" =
      (reset_session plugin_ready,
       [Signal.error .OPERATION_NOT_SUPPORTED
          "Couldn\'t initialize gsasl session, error 2"]) :=
  ⟨(request_initial_cannot_start_session libOk
      (gsignond_sasl_plugin_init false) cont_params_other "PLAIN").1 rfl,
   (request_initial_cannot_start_session libFailStart plugin_ready
      start_params "SCRAM-SHA-1").2 rfl rfl rfl (by decide)⟩

/-- C7 counterexample: a continue whose step completes successfully does
change the retained-params reference — the session teardown clears it —
so the claim's "the retained-params reference itself is not changed by
continue" fails. -/
theorem continue_clears_retained_params :
    plugin_active.gsasl_session = true ∧
    (gsignond_sasl_plugin_request libOk plugin_active cont_params).1.session_data ≠
      plugin_active.session_data :=
  ⟨rfl, by decide⟩

/-- C7 amended: only the ChallengeBase64 value of the params supplied to
continue influences the call — two supplied bags with the same challenge
value produce identical outcomes, so differing credential values are
ignored; the step keeps resolving properties against the state's retained
bag; and the retained reference is never replaced by the supplied bag: it
is unchanged except that a success-and-complete step clears it as part of
the session teardown. -/
theorem request_reads_only_challenge (lib : GsaslLib)
    (self : GSignondSaslPlugin) (d d' : GSignondSessionData) :
    (gsignond_dictionary_get_string d "ChallengeBase64" =
        gsignond_dictionary_get_string d' "ChallengeBase64" →
      gsignond_sasl_plugin_request lib self d =
        gsignond_sasl_plugin_request lib self d') ∧
    (self.gsasl_session = true →
      gsignond_sasl_plugin_request lib self d =
        do_gsasl_iteration lib self
          (gsignond_dictionary_get_string d "ChallengeBase64")) ∧
    ((gsignond_sasl_plugin_request lib self d).1.session_data =
        self.session_data ∨
      ((gsignond_sasl_plugin_request lib self d).1.session_data = none ∧
        (lib.step64 (gsignond_dictionary_get_string d "ChallengeBase64")
            self.session_data).1 = GSASL_OK)) := by
  refine ⟨?_, ?_, ?_⟩
  · intro h
    simp [gsignond_sasl_plugin_request, h]
  · intro h
    simp [gsignond_sasl_plugin_request, h]
  · by_cases hs : self.gsasl_session = true
    · simp only [gsignond_sasl_plugin_request, hs, if_true, do_gsasl_iteration]
      split
      · exact Or.inl rfl
      · split
        · next hok => exact Or.inr ⟨rfl, by simpa using hok⟩
        · exact Or.inl rfl
    · simp [gsignond_sasl_plugin_request, hs]

/-- C7 witness: two continue bags sharing the challenge but carrying
different credential values produce identical outcomes. -/
theorem request_reads_only_challenge_witness :
    gsignond_sasl_plugin_request libOk plugin_active cont_params =
      gsignond_sasl_plugin_request libOk plugin_active cont_params_other :=
  (request_reads_only_challenge libOk plugin_active cont_params
      cont_params_other).1 rfl

/-- C9: no public operation and no resolver callback mutates the session
parameters bag: each operation retains at most the prior bag or exactly
the supplied bag value (never an altered copy), the trivial operations
leave the state untouched, and every value the resolver yields is a value
already present in the bag under some key. -/
theorem session_params_never_mutated (lib : GsaslLib)
    (self : GSignondSaslPlugin) (d : GSignondSessionData) (m : String)
    (p : GsaslProperty) :
    retained_from self d (gsignond_sasl_plugin_request_initial lib self d m).1 ∧
    retained_from self d (gsignond_sasl_plugin_request lib self d).1 ∧
    (gsignond_sasl_plugin_cancel self).1 = self ∧
    (gsignond_sasl_plugin_user_action_finished self d).1 = self ∧
    (gsignond_sasl_plugin_refresh self d).1 = self ∧
    (∀ v, gsasl_callback (some d) p = some v →
      ∃ k, gsignond_dictionary_get_string d k = some v) := by
  refine ⟨?_, ?_, rfl, rfl, rfl, ?_⟩
  · simp only [gsignond_sasl_plugin_request_initial, retained_from]
    split
    · exact Or.inl rfl
    · split
      · exact Or.inl rfl
      · split
        · exact Or.inl rfl
        · simp only [request_initial_after_auth, do_gsasl_iteration]
          split
          · exact Or.inr (Or.inl rfl)
          · split
            · exact Or.inr (Or.inr rfl)
            · split
              · exact Or.inr (Or.inl rfl)
              · exact Or.inr (Or.inr rfl)
  · simp only [gsignond_sasl_plugin_request, retained_from, do_gsasl_iteration]
    split
    · split
      · exact Or.inl rfl
      · split
        · exact Or.inr (Or.inl rfl)
        · exact Or.inl rfl
    · exact Or.inl rfl
  · intro v hv
    rw [gsasl_callback_eq_table] at hv
    cases hk : propertyKey p with
    | none => simp [hk] at hv
    | some k => exact ⟨k, by simpa [hk] using hv⟩

/-- C9 witness: the trivial-operation frame facts and a concrete resolver
value located in the bag. -/
theorem session_params_never_mutated_witness :
    (gsignond_sasl_plugin_cancel plugin_active).1 = plugin_active ∧
    ∃ k, gsignond_dictionary_get_string start_params k = some "megauser" :=
  ⟨(session_params_never_mutated libOk plugin_active start_params "PLAIN"
      .GSASL_AUTHID).2.2.1,
   (session_params_never_mutated libOk plugin_active start_params "PLAIN"
      .GSASL_AUTHID).2.2.2.2.2 "megauser" rfl⟩

/-- C10: the mechanism-session flag and the retained-params reference are
absent or present together: the coupling invariant holds after every
operation from any state satisfying it, is established by session reset
and holds for every freshly initialized plugin. -/
theorem session_state_coupled (lib : GsaslLib) (self : GSignondSaslPlugin)
    (d : GSignondSessionData) (m : String) (h : session_invariant self) :
    session_invariant (gsignond_sasl_plugin_request_initial lib self d m).1 ∧
    session_invariant (gsignond_sasl_plugin_request lib self d).1 ∧
    session_invariant (gsignond_sasl_plugin_cancel self).1 ∧
    session_invariant (gsignond_sasl_plugin_user_action_finished self d).1 ∧
    session_invariant (gsignond_sasl_plugin_refresh self d).1 ∧
    session_invariant (reset_session self) ∧
    (∀ ok, session_invariant (gsignond_sasl_plugin_init ok)) := by
  have hreset : ∀ s : GSignondSaslPlugin, session_invariant (reset_session s) :=
    fun s => rfl
  have hiter : ∀ (l : GsaslLib) (s : GSignondSaslPlugin) (c : Option String),
      session_invariant s → session_invariant (do_gsasl_iteration l s c).1 := by
    intro l s c hs
    simp only [do_gsasl_iteration]
    split
    · exact hs
    · split
      · exact hreset s
      · exact hs
  refine ⟨?_, ?_, h, h, h, hreset self, fun ok => rfl⟩
  · simp only [gsignond_sasl_plugin_request_initial]
    split
    · exact h
    · split
      · exact h
      · split
        · exact h
        · simp only [request_initial_after_auth]
          split
          · exact hreset self
          · exact hiter lib _ _ rfl
  · simp only [gsignond_sasl_plugin_request]
    split
    · exact hiter lib self _ h
    · exact h

/-- C10 witness: the invariant after a continue on a concrete active
plugin. -/
theorem session_state_coupled_witness :
    session_invariant
      (gsignond_sasl_plugin_request libOk plugin_active cont_params).1 :=
  (session_state_coupled libOk plugin_active cont_params "PLAIN" rfl).2.1

end GSignondSasl
